import Mathlib

/-!
Verification of the queue-depth-driven worker autoscaler
(`backend/src/services/queueMonitorService.js`).

The JavaScript class `QueueMonitorService` is shallowly embedded below:

* the constructor's `options.x || default` idiom becomes `orDefault`
  applied to a `MonitorOptions` record of non-negative integers
  (in JavaScript, `0 || d = d` and `n || d = n` for positive `n`);
* the mutable instance fields become the `MonitorState` record,
  threaded explicitly;
* each asynchronous external effect (a per-queue depth read, the shell
  scale command, the connection close) is supplied as an explicit input
  describing its outcome, so the functions stay pure and total exactly
  where the source catches every error;
* `Math.ceil(a / b)` on positive integers becomes `ceilDiv`.
-/

namespace QueueMonitor

/-- `Math.ceil (a / b)` for natural `a` and positive natural `b`. -/
def ceilDiv (a b : Nat) : Nat := (a + b - 1) / b

/-- The numeric options accepted by the constructor.  A field value `0`
models both an absent option and an explicit `0` (both are falsy in
JavaScript, so `options.x || default` treats them identically). -/
structure MonitorOptions where
  checkInterval : Nat
  scaleUpThreshold : Nat
  scaleDownThreshold : Nat
  maxWorkers : Nat
  minWorkers : Nat
deriving Repr, DecidableEq

/-- `v || d` for non-negative integers: `0` is falsy. -/
def orDefault (v d : Nat) : Nat := if v = 0 then d else v

/-- The numeric configuration the constructor stores on the instance. -/
structure MonitorConfig where
  checkInterval : Nat
  scaleUpThreshold : Nat
  scaleDownThreshold : Nat
  maxWorkers : Nat
  minWorkers : Nat
deriving Repr, DecidableEq

/-- Constructor lines 19-23: every numeric option defaults when falsy.
There is no validation of any kind in the source constructor. -/
def mkMonitorConfig (o : MonitorOptions) : MonitorConfig where
  checkInterval := orDefault o.checkInterval 10000
  scaleUpThreshold := orDefault o.scaleUpThreshold 10
  scaleDownThreshold := orDefault o.scaleDownThreshold 2
  maxWorkers := orDefault o.maxWorkers 5
  minWorkers := orDefault o.minWorkers 1

/-- The mutable instance fields of `QueueMonitorService`.  Handles
(`checkTimer`, `connection`, `channel`) are modelled by whether they are
currently set/open. -/
structure MonitorState where
  isRunning : Bool
  checkTimer : Bool
  connectionOpen : Bool
  channelOpen : Bool
  dockerMode : Bool
  currentWorkerCount : Nat
deriving Repr, DecidableEq

/-- Constructor lines 24-29: all handles null, not running,
`currentWorkerCount = minWorkers`. -/
def initialState (cfg : MonitorConfig) (dockerMode : Bool) : MonitorState where
  isRunning := false
  checkTimer := false
  connectionOpen := false
  channelOpen := false
  dockerMode := dockerMode
  currentWorkerCount := cfg.minWorkers

/-- The decision a tick makes (spec §3 `ScalingDecision`). -/
inductive ScalingDecision where
  | scaleUp (amount : Nat)
  | scaleDown (amount : Nat)
  | hold
deriving Repr, DecidableEq

/-- The decision logic of `checkQueueDepths`, lines 135-147: strict
threshold comparisons guarded by the worker-count bounds, with the
scale-up rule tried first. -/
def decideScaling (total cwc : Nat) (cfg : MonitorConfig) : ScalingDecision :=
  if total > cfg.scaleUpThreshold ∧ cwc < cfg.maxWorkers then
    ScalingDecision.scaleUp
      (min (cfg.maxWorkers - cwc) (ceilDiv total cfg.scaleUpThreshold))
  else if total < cfg.scaleDownThreshold ∧ cwc > cfg.minWorkers then
    ScalingDecision.scaleDown
      (min (cwc - cfg.minWorkers)
        (ceilDiv (cfg.scaleDownThreshold - total) cfg.scaleDownThreshold))
  else ScalingDecision.hold

/-- `scaleUp`, lines 182-211.  `execOk` is the outcome of the external
`docker-compose` command; its failure is caught inside the method
(lines 208-210), leaving the count unchanged.  In non-Docker mode no
external command runs and the in-memory count is always incremented. -/
def scaleUp (s : MonitorState) (count : Nat) (execOk : Bool) : MonitorState :=
  if s.dockerMode then
    if execOk then { s with currentWorkerCount := s.currentWorkerCount + count }
    else s
  else
    { s with currentWorkerCount := s.currentWorkerCount + count }

/-- `scaleDown`, lines 217-248: early return at or below the minimum,
re-clamp of the requested count, then the same Docker / in-memory split
as `scaleUp`, with command failure caught (lines 245-247). -/
def scaleDown (cfg : MonitorConfig) (s : MonitorState) (count : Nat)
    (execOk : Bool) : MonitorState :=
  if s.currentWorkerCount ≤ cfg.minWorkers then s
  else
    let actualCount := min count (s.currentWorkerCount - cfg.minWorkers)
    if s.dockerMode then
      if execOk then
        { s with currentWorkerCount := s.currentWorkerCount - actualCount }
      else s
    else
      { s with currentWorkerCount := s.currentWorkerCount - actualCount }

/-- Dispatch of a decision to the scaling methods (the `await this.scaleUp`
/ `await this.scaleDown` calls on lines 137 and 143; `Hold` is the
implicit empty else branch). -/
def applyDecision (cfg : MonitorConfig) (s : MonitorState)
    (d : ScalingDecision) (execOk : Bool) : MonitorState :=
  match d with
  | ScalingDecision.scaleUp n => scaleUp s n execOk
  | ScalingDecision.scaleDown n => scaleDown cfg s n execOk
  | ScalingDecision.hold => s

/-- The depth-read loop of lines 124-130: each entry of `reads` is the
outcome of one `assertQueue` call (`none` = the call threw).  The first
failure aborts the whole loop with an error; otherwise the message
counts are summed. -/
def readTotal : List (Option Nat) → Except Unit Nat
  | [] => Except.ok 0
  | r :: rest =>
    match r with
    | Option.none => Except.error ()
    | Option.some n =>
      match readTotal rest with
      | Except.ok t => Except.ok (n + t)
      | Except.error e => Except.error e

/-- `checkQueueDepths`, lines 117-151: early return unless running with a
channel; the whole body is wrapped in try/catch, so a failed depth read
is logged and leaves the state untouched; otherwise the decision of
lines 135-147 is applied. -/
def checkQueueDepths (cfg : MonitorConfig) (s : MonitorState)
    (reads : List (Option Nat)) (execOk : Bool) : MonitorState :=
  if s.isRunning = false ∨ s.channelOpen = false then s
  else
    match readTotal reads with
    | Except.error _ => s
    | Except.ok total =>
      applyDecision cfg s (decideScaling total s.currentWorkerCount cfg) execOk

/-- `ensureMinimumWorkers`, lines 156-176.  In Docker mode the current
scale is read from `docker-compose ps` (`reported`; `none` = the command
threw, caught by the surrounding try/catch); the reported count is
adopted verbatim and then topped up to `minWorkers` if below it.  In
non-Docker mode the in-memory count is topped up directly. -/
def ensureMinimumWorkers (cfg : MonitorConfig) (s : MonitorState)
    (reported : Option Nat) (execOk : Bool) : MonitorState :=
  if s.dockerMode then
    match reported with
    | Option.none => s
    | Option.some r =>
      let s1 := { s with currentWorkerCount := r }
      if r < cfg.minWorkers then scaleUp s1 (cfg.minWorkers - r) execOk
      else s1
  else
    if s.currentWorkerCount < cfg.minWorkers then
      scaleUp s (cfg.minWorkers - s.currentWorkerCount) execOk
    else s

/-- `stop`, lines 91-112: early return when not running; otherwise the
timer is cleared, the connection close is attempted with any error
caught and logged (`closeOk` is the outcome of `connection.close()`),
and `isRunning` is set to false.  The result is always `Except.ok`:
no path re-throws. -/
def stop (s : MonitorState) (closeOk : Bool) : Except Unit MonitorState :=
  if s.isRunning = false then Except.ok s
  else
    let s1 : MonitorState := { s with checkTimer := false }
    let s2 : MonitorState :=
      if s1.connectionOpen then
        if closeOk then { s1 with connectionOpen := false } else s1
      else s1
    Except.ok { s2 with isRunning := false }

/-- One state-mutating event of the monitor's life: a timer tick
(`checkQueueDepths`) with its per-queue read outcomes and the outcome of
any scale command it issues, or a startup `ensureMinimumWorkers` with
the externally reported worker count and scale-command outcome. -/
inductive MonitorEvent where
  | tick (reads : List (Option Nat)) (execOk : Bool)
  | ensureMin (reported : Option Nat) (execOk : Bool)
deriving Repr

/-- Interpretation of one event on the monitor state. -/
def step (cfg : MonitorConfig) (s : MonitorState) : MonitorEvent → MonitorState
  | MonitorEvent.tick reads execOk => checkQueueDepths cfg s reads execOk
  | MonitorEvent.ensureMin reported execOk =>
    ensureMinimumWorkers cfg s reported execOk

/-- A whole sequence of events. -/
def run (cfg : MonitorConfig) (s : MonitorState)
    (evs : List MonitorEvent) : MonitorState :=
  evs.foldl (step cfg) s

/-- The configuration error the spec demands for zero thresholds. -/
inductive ConfigError where
  | invalidConfig
deriving Repr, DecidableEq

/-- Modelled from the spec: "scaleUpThreshold and scaleDownThreshold of 0
are rejected at config-construction time (`InvalidConfig` error)".  This
definition follows the spec's words; it exists only to be compared with
`mkMonitorConfig`, which is translated from the source constructor. -/
def mkMonitorConfigSpec (o : MonitorOptions) : Except ConfigError MonitorConfig :=
  if o.scaleUpThreshold = 0 ∨ o.scaleDownThreshold = 0 then
    Except.error ConfigError.invalidConfig
  else Except.ok (mkMonitorConfig o)

/-- The configuration built from an empty options object: all defaults. -/
def defaultConfig : MonitorConfig :=
  { checkInterval := 10000, scaleUpThreshold := 10, scaleDownThreshold := 2,
    maxWorkers := 5, minWorkers := 1 }

/-- A running monitor in simulated (non-Docker) mode with the given
worker count. -/
def simRunningState (cwc : Nat) : MonitorState :=
  { isRunning := true, checkTimer := true, connectionOpen := true,
    channelOpen := true, dockerMode := false, currentWorkerCount := cwc }

/-- A running monitor in Docker mode with the given worker count. -/
def dockerRunningState (cwc : Nat) : MonitorState :=
  { isRunning := true, checkTimer := true, connectionOpen := true,
    channelOpen := true, dockerMode := true, currentWorkerCount := cwc }

/-- `ceilDiv a b ≥ 1` whenever `a ≥ 1` and `b ≥ 1`. -/
theorem ceilDiv_pos {a b : Nat} (ha : 1 ≤ a) (hb : 1 ≤ b) : 1 ≤ ceilDiv a b := by
  unfold ceilDiv
  exact Nat.div_pos (by omega) (by omega)

/-- C1: with positive thresholds, `min ≤ max`, `total > scaleUpThreshold`
and `cwc < maxWorkers`, the decision is `ScaleUp` of
`min (maxWorkers - cwc) (ceil (total / scaleUpThreshold))`, an amount
between `1` and `maxWorkers - cwc`; and concretely, with thresholds
10/2, maxWorkers 5 and one worker, a tick seeing 25 messages scales up
by 3 to 4 workers. -/
theorem c1_scale_up_decision (cfg : MonitorConfig) (total cwc : Nat)
    (hsut : 1 ≤ cfg.scaleUpThreshold)
    (hsdt : 1 ≤ cfg.scaleDownThreshold)
    (hmm : cfg.minWorkers ≤ cfg.maxWorkers)
    (htot : cfg.scaleUpThreshold < total)
    (hcwc : cwc < cfg.maxWorkers) :
    decideScaling total cwc cfg
      = ScalingDecision.scaleUp
          (min (cfg.maxWorkers - cwc) (ceilDiv total cfg.scaleUpThreshold))
    ∧ 1 ≤ min (cfg.maxWorkers - cwc) (ceilDiv total cfg.scaleUpThreshold)
    ∧ min (cfg.maxWorkers - cwc) (ceilDiv total cfg.scaleUpThreshold)
        ≤ cfg.maxWorkers - cwc
    ∧ decideScaling 25 1 defaultConfig = ScalingDecision.scaleUp 3
    ∧ (checkQueueDepths defaultConfig (simRunningState 1) [Option.some 25]
        true).currentWorkerCount = 4 := by
  refine ⟨?_, ?_, Nat.min_le_left _ _, by decide, by decide⟩
  · unfold decideScaling
    rw [if_pos ⟨htot, hcwc⟩]
  · have h1 : 1 ≤ cfg.maxWorkers - cwc := by omega
    have h2 : 1 ≤ ceilDiv total cfg.scaleUpThreshold :=
      ceilDiv_pos (by omega) hsut
    omega

/-- C1 witness at the Scenario A numbers. -/
theorem c1_scale_up_decision_witness :
    decideScaling 25 1 defaultConfig
      = ScalingDecision.scaleUp
          (min (defaultConfig.maxWorkers - 1) (ceilDiv 25 defaultConfig.scaleUpThreshold))
    ∧ 1 ≤ min (defaultConfig.maxWorkers - 1) (ceilDiv 25 defaultConfig.scaleUpThreshold)
    ∧ min (defaultConfig.maxWorkers - 1) (ceilDiv 25 defaultConfig.scaleUpThreshold)
        ≤ defaultConfig.maxWorkers - 1
    ∧ decideScaling 25 1 defaultConfig = ScalingDecision.scaleUp 3
    ∧ (checkQueueDepths defaultConfig (simRunningState 1) [Option.some 25]
        true).currentWorkerCount = 4 :=
  c1_scale_up_decision defaultConfig 25 1 (by decide) (by decide) (by decide)
    (by decide) (by decide)

/-- C2: with positive thresholds, `min ≤ max`, `total < scaleDownThreshold`,
`total` not above `scaleUpThreshold` and `cwc > minWorkers`, the decision
is `ScaleDown` of
`min (cwc - minWorkers) (ceil ((scaleDownThreshold - total) / scaleDownThreshold))`,
an amount between `1` and `cwc - minWorkers`; and concretely, with
scaleDownThreshold 2, minWorkers 1 and three workers, a tick seeing 0
messages scales down by 1 to 2 workers. -/
theorem c2_scale_down_decision (cfg : MonitorConfig) (total cwc : Nat)
    (hsut : 1 ≤ cfg.scaleUpThreshold)
    (hsdt : 1 ≤ cfg.scaleDownThreshold)
    (hmm : cfg.minWorkers ≤ cfg.maxWorkers)
    (htot : total < cfg.scaleDownThreshold)
    (hup : total ≤ cfg.scaleUpThreshold)
    (hcwc : cfg.minWorkers < cwc) :
    decideScaling total cwc cfg
      = ScalingDecision.scaleDown
          (min (cwc - cfg.minWorkers)
            (ceilDiv (cfg.scaleDownThreshold - total) cfg.scaleDownThreshold))
    ∧ 1 ≤ min (cwc - cfg.minWorkers)
          (ceilDiv (cfg.scaleDownThreshold - total) cfg.scaleDownThreshold)
    ∧ min (cwc - cfg.minWorkers)
          (ceilDiv (cfg.scaleDownThreshold - total) cfg.scaleDownThreshold)
        ≤ cwc - cfg.minWorkers
    ∧ decideScaling 0 3 defaultConfig = ScalingDecision.scaleDown 1
    ∧ (checkQueueDepths defaultConfig (simRunningState 3) [Option.some 0]
        true).currentWorkerCount = 2 := by
  refine ⟨?_, ?_, Nat.min_le_left _ _, by decide, by decide⟩
  · unfold decideScaling
    rw [if_neg (by omega), if_pos ⟨htot, hcwc⟩]
  · have h1 : 1 ≤ cwc - cfg.minWorkers := by omega
    have h2 : 1 ≤ ceilDiv (cfg.scaleDownThreshold - total) cfg.scaleDownThreshold :=
      ceilDiv_pos (by omega) hsdt
    omega

/-- C2 witness at the Scenario B numbers. -/
theorem c2_scale_down_decision_witness :
    decideScaling 0 3 defaultConfig
      = ScalingDecision.scaleDown
          (min (3 - defaultConfig.minWorkers)
            (ceilDiv (defaultConfig.scaleDownThreshold - 0) defaultConfig.scaleDownThreshold))
    ∧ 1 ≤ min (3 - defaultConfig.minWorkers)
          (ceilDiv (defaultConfig.scaleDownThreshold - 0) defaultConfig.scaleDownThreshold)
    ∧ min (3 - defaultConfig.minWorkers)
          (ceilDiv (defaultConfig.scaleDownThreshold - 0) defaultConfig.scaleDownThreshold)
        ≤ 3 - defaultConfig.minWorkers
    ∧ decideScaling 0 3 defaultConfig = ScalingDecision.scaleDown 1
    ∧ (checkQueueDepths defaultConfig (simRunningState 3) [Option.some 0]
        true).currentWorkerCount = 2 :=
  c2_scale_down_decision defaultConfig 0 3 (by decide) (by decide) (by decide)
    (by decide) (by decide) (by decide)

/-- C4: with the thresholds ordered `scaleDownThreshold ≤ scaleUpThreshold`,
a total exactly at either threshold or strictly between them yields
`Hold`, and the tick leaves the whole state (in particular the worker
count) unchanged: both rules use strict inequalities. -/
theorem c4_boundary_holds (cfg : MonitorConfig) (s : MonitorState)
    (total : Nat) (reads : List (Option Nat)) (execOk : Bool)
    (hord : cfg.scaleDownThreshold ≤ cfg.scaleUpThreshold)
    (hr : readTotal reads = Except.ok total)
    (htot : total = cfg.scaleUpThreshold ∨ total = cfg.scaleDownThreshold
      ∨ (cfg.scaleDownThreshold < total ∧ total < cfg.scaleUpThreshold)) :
    decideScaling total s.currentWorkerCount cfg = ScalingDecision.hold
    ∧ checkQueueDepths cfg s reads execOk = s := by
  have hdec : decideScaling total s.currentWorkerCount cfg
      = ScalingDecision.hold := by
    unfold decideScaling
    rw [if_neg (by omega), if_neg (by omega)]
  refine ⟨hdec, ?_⟩
  unfold checkQueueDepths
  split
  · rfl
  · rw [hr]
    show applyDecision cfg s (decideScaling total s.currentWorkerCount cfg) execOk = s
    rw [hdec]
    rfl

/-- C4 witness at the Scenario C numbers: total 5 between thresholds
2 and 10. -/
theorem c4_boundary_holds_witness :
    decideScaling 5 (simRunningState 1).currentWorkerCount defaultConfig
      = ScalingDecision.hold
    ∧ checkQueueDepths defaultConfig (simRunningState 1) [Option.some 5] true
      = simRunningState 1 :=
  c4_boundary_holds defaultConfig (simRunningState 1) 5 [Option.some 5] true
    (by decide) rfl (Or.inr (Or.inr (by decide)))

/-- A failed depth read anywhere in the per-queue loop makes the whole
read step fail. -/
theorem readTotal_error_of_none {reads : List (Option Nat)}
    (h : Option.none ∈ reads) : readTotal reads = Except.error () := by
  induction reads with
  | nil => cases h
  | cons r rest ih =>
    cases h with
    | head => rfl
    | tail _ hmem =>
      cases r with
      | none => rfl
      | some n => simp [readTotal, ih hmem]

/-- C5: if any watched queue's depth read fails during a tick, the tick's
decision is skipped: the state is returned unchanged (no scaling, same
worker count) and, the whole body being wrapped in try/catch, the error
never propagates out of `checkQueueDepths`. -/
theorem c5_read_failure_skips_tick (cfg : MonitorConfig) (s : MonitorState)
    (reads : List (Option Nat)) (execOk : Bool)
    (h : Option.none ∈ reads) :
    checkQueueDepths cfg s reads execOk = s := by
  unfold checkQueueDepths
  split
  · rfl
  · rw [readTotal_error_of_none h]

/-- C5 witness: a running monitor whose second depth read fails keeps its
state. -/
theorem c5_read_failure_skips_tick_witness :
    checkQueueDepths defaultConfig (simRunningState 3)
      [Option.some 1, Option.none] true = simRunningState 3 :=
  c5_read_failure_skips_tick defaultConfig (simRunningState 3)
    [Option.some 1, Option.none] true (by decide)

/-- C6: when the external scale command fails (Docker mode), both
`scaleUp` and `scaleDown` catch the error, return normally and leave the
state — in particular `currentWorkerCount` — unchanged, and so does a
whole tick issuing such a command; the next tick therefore starts from
the last known-good count. -/
theorem c6_executor_failure_atomic (cfg : MonitorConfig) (s : MonitorState)
    (count : Nat) (reads : List (Option Nat))
    (hd : s.dockerMode = true) :
    scaleUp s count false = s
    ∧ scaleDown cfg s count false = s
    ∧ checkQueueDepths cfg s reads false = s := by
  have hup : ∀ n, scaleUp s n false = s := by
    intro n
    simp [scaleUp, hd]
  have hdown : ∀ n, scaleDown cfg s n false = s := by
    intro n
    simp [scaleDown, hd]
  refine ⟨hup count, hdown count, ?_⟩
  unfold checkQueueDepths
  split
  · rfl
  · cases hR : readTotal reads with
    | error e => rfl
    | ok total =>
      show applyDecision cfg s (decideScaling total s.currentWorkerCount cfg)
        false = s
      cases decideScaling total s.currentWorkerCount cfg with
      | scaleUp n => exact hup n
      | scaleDown n => exact hdown n
      | hold => rfl

/-- C6 witness: a Docker-mode monitor with 3 workers keeps them when the
scale command fails. -/
theorem c6_executor_failure_atomic_witness :
    scaleUp (dockerRunningState 3) 2 false = dockerRunningState 3
    ∧ scaleDown defaultConfig (dockerRunningState 3) 1 false
      = dockerRunningState 3
    ∧ checkQueueDepths defaultConfig (dockerRunningState 3) [Option.some 0]
      false = dockerRunningState 3 :=
  c6_executor_failure_atomic defaultConfig (dockerRunningState 3) 2
    [Option.some 0] rfl

/-- An options object that explicitly sets both thresholds to 0. -/
def zeroThresholdOptions : MonitorOptions :=
  { checkInterval := 10000, scaleUpThreshold := 0, scaleDownThreshold := 0,
    maxWorkers := 5, minWorkers := 1 }

/-- C7 counterexample: constructing with both thresholds 0 is NOT
rejected.  The source constructor (`mkMonitorConfig`, translated from
lines 13-30, which contain no validation) succeeds and silently
substitutes the defaults 10 and 2, whereas the spec-mandated behaviour
(`mkMonitorConfigSpec`) would return an `InvalidConfig` error. -/
theorem c7_counterexample :
    mkMonitorConfig zeroThresholdOptions
      = { checkInterval := 10000, scaleUpThreshold := 10,
          scaleDownThreshold := 2, maxWorkers := 5, minWorkers := 1 }
    ∧ mkMonitorConfigSpec zeroThresholdOptions
      = Except.error ConfigError.invalidConfig := by
  constructor <;> rfl

/-- C7 amended: a threshold given as 0 is not rejected at construction;
it is silently replaced by its default (10 for scaleUpThreshold, 2 for
scaleDownThreshold) and construction succeeds. -/
theorem c7_amended_zero_threshold_defaulted (o : MonitorOptions) :
    (o.scaleUpThreshold = 0 → (mkMonitorConfig o).scaleUpThreshold = 10)
    ∧ (o.scaleDownThreshold = 0 → (mkMonitorConfig o).scaleDownThreshold = 2) := by
  constructor <;> intro h <;> simp [mkMonitorConfig, orDefault, h]

/-- C7 amended witness at the explicit zero-threshold options. -/
theorem c7_amended_zero_threshold_defaulted_witness :
    (mkMonitorConfig zeroThresholdOptions).scaleUpThreshold = 10
    ∧ (mkMonitorConfig zeroThresholdOptions).scaleDownThreshold = 2 :=
  ⟨(c7_amended_zero_threshold_defaulted zeroThresholdOptions).1 rfl,
   (c7_amended_zero_threshold_defaulted zeroThresholdOptions).2 rfl⟩

/-- C8: `stop` never throws — it returns `Except.ok` from every state and
for either outcome of the connection close (whose error is caught and
logged, lines 102-108) — and, when the monitor is running, it clears the
poll timer, sets `isRunning` to false, and closes the connection when
the close succeeds. -/
theorem c8_stop_never_throws (s : MonitorState) (closeOk : Bool) :
    (∃ t, stop s closeOk = Except.ok t)
    ∧ (s.isRunning = true →
        ∃ t, stop s closeOk = Except.ok t
          ∧ t.checkTimer = false
          ∧ t.isRunning = false
          ∧ (closeOk = true → t.connectionOpen = false)) := by
  obtain ⟨r, tm, c, ch, d, w⟩ := s
  cases r <;> cases c <;> cases closeOk <;>
    simp [stop]

/-- C8 witness: stopping a running monitor whose connection close fails
still succeeds, clears the timer and marks it stopped. -/
theorem c8_stop_never_throws_witness :
    (∃ t, stop (simRunningState 2) false = Except.ok t)
    ∧ ((simRunningState 2).isRunning = true →
        ∃ t, stop (simRunningState 2) false = Except.ok t
          ∧ t.checkTimer = false
          ∧ t.isRunning = false
          ∧ (false = true → t.connectionOpen = false)) :=
  c8_stop_never_throws (simRunningState 2) false

/-- C10: any numeric option passed as 0 is silently replaced by its
built-in default (checkInterval 10000, scaleUpThreshold 10,
scaleDownThreshold 2, maxWorkers 5, minWorkers 1); in particular
`minWorkers: 0` yields a monitor with `minWorkers = 1` and initial
`currentWorkerCount = 1`, so a minimum of zero workers cannot be
configured. -/
theorem c10_zero_options_defaulted (o : MonitorOptions) (d : Bool) :
    (o.checkInterval = 0 → (mkMonitorConfig o).checkInterval = 10000)
    ∧ (o.scaleUpThreshold = 0 → (mkMonitorConfig o).scaleUpThreshold = 10)
    ∧ (o.scaleDownThreshold = 0 → (mkMonitorConfig o).scaleDownThreshold = 2)
    ∧ (o.maxWorkers = 0 → (mkMonitorConfig o).maxWorkers = 5)
    ∧ (o.minWorkers = 0 →
        (mkMonitorConfig o).minWorkers = 1
        ∧ (initialState (mkMonitorConfig o) d).currentWorkerCount = 1) := by
  refine ⟨?_, ?_, ?_, ?_, ?_⟩ <;> intro h <;>
    simp [mkMonitorConfig, orDefault, initialState, h]

/-- An options object with every numeric option explicitly 0. -/
def allZeroOptions : MonitorOptions :=
  { checkInterval := 0, scaleUpThreshold := 0, scaleDownThreshold := 0,
    maxWorkers := 0, minWorkers := 0 }

/-- C10 witness: all-zero options produce the full default configuration
and one initial worker. -/
theorem c10_zero_options_defaulted_witness :
    (mkMonitorConfig allZeroOptions).checkInterval = 10000
    ∧ (mkMonitorConfig allZeroOptions).scaleUpThreshold = 10
    ∧ (mkMonitorConfig allZeroOptions).scaleDownThreshold = 2
    ∧ (mkMonitorConfig allZeroOptions).maxWorkers = 5
    ∧ (mkMonitorConfig allZeroOptions).minWorkers = 1
    ∧ (initialState (mkMonitorConfig allZeroOptions) false).currentWorkerCount = 1 := by
  obtain ⟨h1, h2, h3, h4, h5⟩ := c10_zero_options_defaulted allZeroOptions false
  exact ⟨h1 rfl, h2 rfl, h3 rfl, h4 rfl, (h5 rfl).1, (h5 rfl).2⟩

/-- C3 counterexample: in Docker mode the startup `ensureMinimumWorkers`
adopts the externally reported worker count verbatim (line 162) without
clamping it to `maxWorkers`; with defaults (minWorkers 1, maxWorkers 5)
and an external report of 10 workers, the completed operation leaves
`currentWorkerCount = 10`, outside `[minWorkers, maxWorkers]`. -/
theorem c3_counterexample :
    (run defaultConfig (dockerRunningState 1)
      [MonitorEvent.ensureMin (Option.some 10) true]).currentWorkerCount = 10
    ∧ ¬ ((run defaultConfig (dockerRunningState 1)
        [MonitorEvent.ensureMin (Option.some 10) true]).currentWorkerCount
          ≤ defaultConfig.maxWorkers) := by
  constructor <;> decide

/-- Safety condition on an event for the clamping invariant: timer ticks
are unrestricted; a startup `ensureMinimumWorkers` must not have the
external mechanism report more workers than `maxWorkers`, and the
corrective scale-up it issues when the report is below `minWorkers` must
complete successfully. -/
def eventSafe (cfg : MonitorConfig) : MonitorEvent → Prop
  | MonitorEvent.tick _ _ => True
  | MonitorEvent.ensureMin reported execOk =>
    (match reported with
     | Option.none => True
     | Option.some r => r ≤ cfg.maxWorkers) ∧ execOk = true

/-- One tick keeps `currentWorkerCount` inside `[minWorkers, maxWorkers]`:
the scale-up amount is capped by `maxWorkers - cwc` and the scale-down
amount by `cwc - minWorkers` (twice, once in the decision and once
inside `scaleDown`). -/
theorem checkQueueDepths_preserves_bounds (cfg : MonitorConfig)
    (s : MonitorState) (reads : List (Option Nat)) (execOk : Bool)
    (hlo : cfg.minWorkers ≤ s.currentWorkerCount)
    (hhi : s.currentWorkerCount ≤ cfg.maxWorkers) :
    cfg.minWorkers ≤ (checkQueueDepths cfg s reads execOk).currentWorkerCount
    ∧ (checkQueueDepths cfg s reads execOk).currentWorkerCount
        ≤ cfg.maxWorkers := by
  unfold checkQueueDepths
  split
  · exact ⟨hlo, hhi⟩
  · cases hR : readTotal reads with
    | error e => exact ⟨hlo, hhi⟩
    | ok total =>
      show cfg.minWorkers
          ≤ (applyDecision cfg s (decideScaling total s.currentWorkerCount cfg)
              execOk).currentWorkerCount
        ∧ (applyDecision cfg s (decideScaling total s.currentWorkerCount cfg)
            execOk).currentWorkerCount ≤ cfg.maxWorkers
      unfold decideScaling
      split
      · rename_i hcond
        simp only [applyDecision, scaleUp]
        split
        · split
          · constructor <;> simp <;> omega
          · exact ⟨hlo, hhi⟩
        · constructor <;> simp <;> omega
      · split
        · rename_i hcond2
          simp only [applyDecision, scaleDown]
          split
          · exact ⟨hlo, hhi⟩
          · rename_i hgt
            split
            · split
              · constructor <;> simp <;> omega
              · exact ⟨hlo, hhi⟩
            · constructor <;> simp <;> omega
        · exact ⟨hlo, hhi⟩

/-- A safe startup `ensureMinimumWorkers` keeps `currentWorkerCount`
inside `[minWorkers, maxWorkers]`: a report below `minWorkers` is topped
up exactly to `minWorkers`; any other report is adopted and is in range
by the safety condition. -/
theorem ensureMinimumWorkers_preserves_bounds (cfg : MonitorConfig)
    (s : MonitorState) (reported : Option Nat)
    (hmm : cfg.minWorkers ≤ cfg.maxWorkers)
    (hlo : cfg.minWorkers ≤ s.currentWorkerCount)
    (hhi : s.currentWorkerCount ≤ cfg.maxWorkers)
    (hrep : match reported with
      | Option.none => True
      | Option.some r => r ≤ cfg.maxWorkers) :
    cfg.minWorkers
      ≤ (ensureMinimumWorkers cfg s reported true).currentWorkerCount
    ∧ (ensureMinimumWorkers cfg s reported true).currentWorkerCount
        ≤ cfg.maxWorkers := by
  unfold ensureMinimumWorkers
  split
  · rename_i hdm
    cases reported with
    | none => exact ⟨hlo, hhi⟩
    | some r =>
      simp only at hrep
      simp only []
      split
      · rename_i hlt
        simp [scaleUp, hdm]
        omega
      · rename_i hge
        constructor <;> simp <;> omega
  · split
    · rename_i hlt
      simp [scaleUp]
      omega
    · exact ⟨hlo, hhi⟩

/-- Unfolding one event of a run. -/
theorem run_cons (cfg : MonitorConfig) (s : MonitorState)
    (e : MonitorEvent) (evs : List MonitorEvent) :
    run cfg s (e :: evs) = run cfg (step cfg s e) evs := rfl

/-- C3 amended: starting from any state whose worker count is within
`[minWorkers, maxWorkers]` (in particular the construction state, where
it equals `minWorkers`), and for any sequence of ticks and startup
`ensureMinimumWorkers` operations — in both Docker and simulated mode —
`currentWorkerCount` stays within `[minWorkers, maxWorkers]`, PROVIDED
every externally reported worker count is at most `maxWorkers` and every
startup corrective scale-up completes: an external report above
`maxWorkers` is adopted verbatim and breaks the upper bound
(see the counterexample). -/
theorem c3_amended_clamping (cfg : MonitorConfig) (s : MonitorState)
    (evs : List MonitorEvent)
    (hmm : cfg.minWorkers ≤ cfg.maxWorkers)
    (hlo : cfg.minWorkers ≤ s.currentWorkerCount)
    (hhi : s.currentWorkerCount ≤ cfg.maxWorkers)
    (hsafe : ∀ e ∈ evs, eventSafe cfg e) :
    cfg.minWorkers ≤ (run cfg s evs).currentWorkerCount
    ∧ (run cfg s evs).currentWorkerCount ≤ cfg.maxWorkers := by
  induction evs generalizing s with
  | nil => exact ⟨hlo, hhi⟩
  | cons e rest ih =>
    have he : eventSafe cfg e := hsafe e (List.mem_cons_self e rest)
    have hrest : ∀ x ∈ rest, eventSafe cfg x := by
      intro x hx
      exact hsafe x (List.mem_cons_of_mem e hx)
    rw [run_cons]
    cases e with
    | tick reads execOk =>
      obtain ⟨h1, h2⟩ :=
        checkQueueDepths_preserves_bounds cfg s reads execOk hlo hhi
      exact ih (checkQueueDepths cfg s reads execOk) h1 h2 hrest
    | ensureMin reported execOk =>
      obtain ⟨hrep, hexec⟩ := he
      subst hexec
      obtain ⟨h1, h2⟩ :=
        ensureMinimumWorkers_preserves_bounds cfg s reported hmm hlo hhi hrep
      exact ih (ensureMinimumWorkers cfg s reported true) h1 h2 hrest

/-- An event sequence exercising both modes of the amended invariant:
a startup report of 3 workers, a busy tick, an idle tick, a tick whose
scale command fails. -/
def c3events : List MonitorEvent :=
  [MonitorEvent.ensureMin (Option.some 3) true,
   MonitorEvent.tick [Option.some 25] true,
   MonitorEvent.tick [Option.some 0] true,
   MonitorEvent.tick [Option.some 0] false]

/-- C3 amended witness: a Docker-mode run through `c3events` stays within
`[1, 5]`. -/
theorem c3_amended_clamping_witness :
    defaultConfig.minWorkers
      ≤ (run defaultConfig (dockerRunningState 1) c3events).currentWorkerCount
    ∧ (run defaultConfig (dockerRunningState 1) c3events).currentWorkerCount
        ≤ defaultConfig.maxWorkers :=
  c3_amended_clamping defaultConfig (dockerRunningState 1) c3events
    (by decide) (by decide) (by decide)
    (by
      intro e he
      simp only [c3events, List.mem_cons, List.not_mem_nil, or_false] at he
      rcases he with rfl | rfl | rfl | rfl
      · exact ⟨by decide, rfl⟩
      · trivial
      · trivial
      · trivial)

end QueueMonitor
